import Mathlib

/-!
Verification of the bff-example user-account service.

This file gives a shallow embedding, in Lean 4, of the authentication and
authorization core of the service: the two request gates
(`AuthMiddleware.authenticate`, `ServiceAuthMiddleware.authenticate`), the
token providers (`JwtProvider.verify`, `ServiceTokenProvider.verify`), the
account service (`UserService.createUser`, `UserService.authenticateUser`),
the input validator (`UserValidator.validateCreateUser` over the zod
`createUserSchema`), the error responder (`ErrorHandler.handle`) and the
password hasher (`CryptoProvider`).

Modelling conventions:
- TypeScript values that may be `undefined` become `Option`;
  JavaScript falsiness of a string (`undefined` or `""`) is made explicit.
- Exceptions become `Except`: a thrown error is `.error`, and a
  `try/catch` block is a `match` on the `Except` value.
- External collaborators (the jsonwebtoken library, bcrypt, the document
  store) are modelled as explicit function parameters or explicit state,
  so every repository function stays a pure, executable Lean definition.
- `String.length` models the JavaScript `.length`; the two agree on all
  inputs used by the claims (they differ only beyond the basic multilingual
  plane, which no claim exercises).
-/

namespace BffExample

/-! ### String utilities mirroring the JavaScript primitives used by the code -/

/-- Splits a list of characters at every occurrence of `sep`, keeping empty
pieces, exactly as the JavaScript `String.prototype.split` does with a
single-character separator: `split ' ' "" = [""]`, `split ' ' " " = ["", ""]`. -/
def splitChar (sep : Char) : List Char → List (List Char)
  | [] => [[]]
  | c :: rest =>
    if c = sep then
      [] :: splitChar sep rest
    else
      match splitChar sep rest with
      | [] => [[c]]
      | piece :: pieces => (c :: piece) :: pieces

/-- `s.split(sep)` of JavaScript, for a single-character separator. -/
def jsSplit (sep : Char) (s : String) : List String :=
  (splitChar sep s.toList).map (fun cs => String.mk cs)

/-- JavaScript falsiness of a `string | undefined` value: `undefined` and the
empty string are falsy, every other string is truthy. -/
def jsStrFalsy : Option String → Bool
  | none => true
  | some s => s = ""

/-! ### Token provider (`src/user-service/src/provider/jwt.provider.ts`) -/

/-- The claims payload carried by an issued token (`JwtPayload`). -/
structure JwtPayload where
  userId : String
  email : String
  deriving DecidableEq, Repr

/-- The causes with which the underlying jsonwebtoken `verify` can throw;
the provider never inspects them. -/
inductive JwtLibError where
  | badSignature
  | expired
  | malformed
  | other (message : String)
  deriving DecidableEq, Repr

/-- `JwtProvider.verify`: calls the underlying library verification
(`jwtVerify`, a parameter modelling `jwt.verify(token, this.secret)`), and
on any thrown error rethrows the single uniform error
`"Invalid or expired token"`. -/
def JwtProvider.verify (jwtVerify : String → Except JwtLibError JwtPayload)
    (token : String) : Except String JwtPayload :=
  match jwtVerify token with
  | .ok decoded => .ok decoded
  | .error _ => .error "Invalid or expired token"

/-! ### Request gate, user auth (`src/user-service/src/middlewares/auth.middleware.ts`) -/

/-- Terminal outcome of a gate: admission (with the claims attached to the
request context, if any) or a short-circuit reply `status`/`error`/`message`. -/
inductive GateResult where
  | admitted (user : Option JwtPayload)
  | rejected (status : Nat) (error : String) (message : String)
  deriving DecidableEq, Repr

/-- The scheme test `/^Bearer$/i.test(scheme)`: the whole string must
case-insensitively equal `"Bearer"` (ASCII case folding, which is what a
non-unicode JavaScript regex performs here). -/
def bearerSchemeTest (scheme : String) : Bool :=
  scheme.toList.map Char.toLower = "bearer".toList

/-- `AuthMiddleware.authenticate`, translated line by line.  The verifier
argument models `this.jwtProvider.verify`; a `.error` result is a thrown
exception, caught by the inner `try/catch` around the verification call.
The outer `try/catch` (status 500) guards only code that cannot throw in
this embedding, so no 500 branch appears. -/
def AuthMiddleware.authenticate (verifyTok : String → Except String JwtPayload)
    (authorization : Option String) : GateResult :=
  if jsStrFalsy authorization then
    .rejected 401 "Unauthorized" "No token provided"
  else
    let authHeader := authorization.getD ""
    let parts := jsSplit ' ' authHeader
    if parts.length ≠ 2 then
      .rejected 401 "Unauthorized" "Invalid token format"
    else
      let scheme := parts.getD 0 ""
      let token := parts.getD 1 ""
      if ¬ bearerSchemeTest scheme then
        .rejected 401 "Unauthorized" "Token must be Bearer type"
      else
        match verifyTok token with
        | .error _ => .rejected 401 "Unauthorized" "Invalid or expired token"
        | .ok decoded => .admitted (some decoded)

/-- The user-auth gate exactly as the spec's state machine words it
(refinement reference): case 1 fires exactly when the header is *missing*,
and an empty header therefore falls through to the part-count check. -/
def authGateSpecClaim (verifyTok : String → Except String JwtPayload)
    (authorization : Option String) : GateResult :=
  match authorization with
  | none => .rejected 401 "Unauthorized" "No token provided"
  | some authHeader =>
    let parts := jsSplit ' ' authHeader
    if parts.length ≠ 2 then
      .rejected 401 "Unauthorized" "Invalid token format"
    else
      let scheme := parts.getD 0 ""
      let token := parts.getD 1 ""
      if ¬ bearerSchemeTest scheme then
        .rejected 401 "Unauthorized" "Token must be Bearer type"
      else
        match verifyTok token with
        | .error _ => .rejected 401 "Unauthorized" "Invalid or expired token"
        | .ok decoded => .admitted (some decoded)

/-- The spec's state machine amended minimally: case 1 fires when the header
is missing *or empty* (the code tests JavaScript falsiness, not absence). -/
def authGateSpecAmended (verifyTok : String → Except String JwtPayload)
    (authorization : Option String) : GateResult :=
  match authorization with
  | none => .rejected 401 "Unauthorized" "No token provided"
  | some authHeader =>
    if authHeader = "" then
      .rejected 401 "Unauthorized" "No token provided"
    else
      let parts := jsSplit ' ' authHeader
      if parts.length ≠ 2 then
        .rejected 401 "Unauthorized" "Invalid token format"
      else
        let scheme := parts.getD 0 ""
        let token := parts.getD 1 ""
        if ¬ bearerSchemeTest scheme then
          .rejected 401 "Unauthorized" "Token must be Bearer type"
        else
          match verifyTok token with
          | .error _ => .rejected 401 "Unauthorized" "Invalid or expired token"
          | .ok decoded => .admitted (some decoded)

/-! ### Request gate, service auth
(`src/user-service/src/middlewares/service-auth.middleware.ts` and
`src/user-service/src/provider/service-token.provider.ts`) -/

/-- A header value as node delivers it to the handler: a single string, or
an array of strings when the header was duplicated. -/
inductive HeaderValue where
  | str (s : String)
  | strs (l : List String)
  deriving DecidableEq, Repr

/-- `ServiceTokenProvider.verify`: strict equality of the candidate against
the configured static token. -/
def ServiceTokenProvider.verify (serviceToken token : String) : Bool :=
  token == serviceToken

/-- `ServiceAuthMiddleware.authenticate`, translated line by line.  The
first branch is the JavaScript falsiness test `if (!xToken)`: it fires for
an absent header and for the empty string, while an array value — even an
empty one — is truthy and reaches the `typeof` check. -/
def ServiceAuthMiddleware.authenticate (serviceToken : String)
    (xToken : Option HeaderValue) : GateResult :=
  match xToken with
  | none => .rejected 401 "Unauthorized" "No service token provided"
  | some (.str s) =>
    if s = "" then
      .rejected 401 "Unauthorized" "No service token provided"
    else if ¬ ServiceTokenProvider.verify serviceToken s then
      .rejected 401 "Unauthorized" "Invalid service token"
    else
      .admitted none
  | some (.strs _) => .rejected 401 "Unauthorized" "Invalid token format"

/-- The service-auth gate exactly as the spec's state machine words it
(refinement reference): case 1 fires exactly when the header is *absent*. -/
def serviceGateSpecClaim (serviceToken : String)
    (xToken : Option HeaderValue) : GateResult :=
  match xToken with
  | none => .rejected 401 "Unauthorized" "No service token provided"
  | some (.strs _) => .rejected 401 "Unauthorized" "Invalid token format"
  | some (.str s) =>
    if s ≠ serviceToken then
      .rejected 401 "Unauthorized" "Invalid service token"
    else
      .admitted none

/-- The spec's state machine amended minimally: case 1 fires when the
header is absent *or the empty string* (the code tests JavaScript
falsiness, not absence). -/
def serviceGateSpecAmended (serviceToken : String)
    (xToken : Option HeaderValue) : GateResult :=
  match xToken with
  | none => .rejected 401 "Unauthorized" "No service token provided"
  | some (.strs _) => .rejected 401 "Unauthorized" "Invalid token format"
  | some (.str s) =>
    if s = "" then
      .rejected 401 "Unauthorized" "No service token provided"
    else if s ≠ serviceToken then
      .rejected 401 "Unauthorized" "Invalid service token"
    else
      .admitted none

/-! ### Error taxonomy (`src/user-service/src/errors/app-error.ts`) -/

/-- One entry of a `ValidationError`'s `details` list. -/
structure FieldDetail where
  field : String
  message : String
  deriving DecidableEq, Repr

/-- The data carried by an `AppError` instance: `message`, `statusCode`,
the optional machine-readable `code`, whether the instance is a
`ValidationError`, and — only for a `ValidationError` — its optional
`details` list. -/
structure AppErrorData where
  message : String
  statusCode : Nat
  code : Option String
  isValidation : Bool
  details : Option (List FieldDetail)
  deriving DecidableEq, Repr

/-- `new AppError(message, statusCode, code)`. -/
def AppError (message : String) (statusCode : Nat) (code : Option String) :
    AppErrorData :=
  { message := message, statusCode := statusCode, code := code,
    isValidation := false, details := none }

/-- `new ValidationError(message, details)`. -/
def ValidationError (message : String) (details : Option (List FieldDetail)) :
    AppErrorData :=
  { message := message, statusCode := 400, code := some "VALIDATION_ERROR",
    isValidation := true, details := details }

/-- `new ConflictError(message)`. -/
def ConflictError (message : String) : AppErrorData :=
  { message := message, statusCode := 409, code := some "CONFLICT_ERROR",
    isValidation := false, details := none }

/-- `new NotFoundError(message)`. -/
def NotFoundError (message : String) : AppErrorData :=
  { message := message, statusCode := 404, code := some "NOT_FOUND_ERROR",
    isValidation := false, details := none }

/-- `new BadRequestError(message)`. -/
def BadRequestError (message : String) : AppErrorData :=
  { message := message, statusCode := 400, code := some "BAD_REQUEST_ERROR",
    isValidation := false, details := none }

/-! ### Error responder (`ErrorHandler.handle`, error-handler.helper.ts) -/

/-- The `unknown` value reaching the boundary responder: an `AppError`
instance, or any other JavaScript value. -/
inductive ErrValue where
  | appError (e : AppErrorData)
  | genericError (message : String)
  | strVal (s : String)
  | nullVal
  | undefinedVal
  | objVal
  deriving DecidableEq, Repr

/-- The externally visible response shape: status plus a body with `error`,
optional `code`, optional `details`. -/
structure HttpResponse where
  status : Nat
  error : String
  code : Option String
  details : Option (List FieldDetail)
  deriving DecidableEq, Repr

/-- `ErrorHandler.handle`, translated line by line.  `if (error.code)` is a
JavaScript truthiness test, so an empty-string code is omitted like an
absent one; `error instanceof ValidationError && error.details` keeps the
details only for a `ValidationError` whose `details` is set (an empty list
is truthy and is kept).  Every non-`AppError` value is logged and flattened
to the generic 500 body. -/
def ErrorHandler.handle : ErrValue → HttpResponse
  | .appError e =>
    { status := e.statusCode
      error := e.message
      code :=
        match e.code with
        | some c => if c = "" then none else some c
        | none => none
      details := if e.isValidation then e.details else none }
  | _ => { status := 500, error := "Internal server error", code := none, details := none }

/-! ### Input validator (`UserValidator.validateCreateUser` over the zod
`createUserSchema` of `src/unnamed/part_007`)

The zod library is external; its semantics for this schema are embedded
directly: per field, the checks run in declaration order and every failing
check contributes one issue; the object collects the issues of all fields
(email first, then password), so validation does not stop at the first
error.  The email format predicate embeds zod's default email pattern
`^(?!\.)(?!.*\.\.)([A-Za-z0-9_'+\-\.]*)[A-Za-z0-9_+-]@([A-Za-z0-9][A-Za-z0-9\-]*\.)+[A-Za-z]\x7b2,\x7d$`. -/

/-- Characters the zod email pattern admits anywhere in the local part:
letters, digits, underscore, apostrophe, plus, hyphen, dot. -/
def localCharOk (c : Char) : Bool :=
  c.isAlpha || c.isDigit || c = '_' || c = Char.ofNat 39 || c = '+' || c = '-' || c = '.'

/-- Characters the zod email pattern requires as the last character of the
local part (the dot and the apostrophe are excluded there). -/
def localLastCharOk (c : Char) : Bool :=
  c.isAlpha || c.isDigit || c = '_' || c = '+' || c = '-'

/-- Whether two consecutive dots occur anywhere in the string (the
pattern's second lookahead). -/
def hasDoubleDot : List Char → Bool
  | [] => false
  | [_] => false
  | a :: b :: rest => (a = '.' && b = '.') || hasDoubleDot (b :: rest)

/-- A non-final domain label: one alphanumeric character followed by
alphanumerics or hyphens. -/
def domainLabelOk : List Char → Bool
  | [] => false
  | c :: rest => (c.isAlpha || c.isDigit) && rest.all (fun d => d.isAlpha || d.isDigit || d = '-')

/-- The final top-level label: at least two characters, all letters. -/
def tldOk (l : List Char) : Bool :=
  decide (l.length ≥ 2) && l.all Char.isAlpha

/-- zod's default email format predicate, embedded as an executable
recogniser of the pattern above. -/
def zodEmailOk (s : String) : Bool :=
  let cs := s.toList
  (match cs with | [] => true | c :: _ => ¬ c = '.') &&
  ¬ hasDoubleDot cs &&
  (match splitChar '@' cs with
   | [localPart, domainPart] =>
     (match localPart.getLast? with
      | none => false
      | some lastC => localLastCharOk lastC) &&
     localPart.all localCharOk &&
     (match (splitChar '.' domainPart).reverse with
      | tld :: labels => tldOk tld && ¬ labels.isEmpty && labels.all domainLabelOk
      | [] => false)
   | _ => false)

/-- Message of the email format check (`z.email({ message: ... })`). -/
def emailFormatMsg : String := "Invalid email format"

/-- Message of the email `.min(1, ...)` check. -/
def emailRequiredMsg : String := "Email is required"

/-- Message of the password `.min(6, ...)` check. -/
def passwordMinMsg : String := "Password must be at least 6 characters long"

/-- Message of the password `.max(100, ...)` check. -/
def passwordMaxMsg : String := "Password must not exceed 100 characters"

/-- zod's message for a missing or non-string field; its exact wording
(which names the received type) is not relied on by any claim. -/
def invalidTypeMsg : String := "Invalid input: expected string"

/-- Issues of the `email` field for a string input, in check order. -/
def emailStrIssues (s : String) : List FieldDetail :=
  (if zodEmailOk s then [] else [⟨"email", emailFormatMsg⟩]) ++
  (if s.length < 1 then [⟨"email", emailRequiredMsg⟩] else [])

/-- Issues of the `password` field for a string input, in check order. -/
def passwordStrIssues (s : String) : List FieldDetail :=
  (if s.length < 6 then [⟨"password", passwordMinMsg⟩] else []) ++
  (if s.length > 100 then [⟨"password", passwordMaxMsg⟩] else [])

/-- A field of the raw JSON body: absent, a string, or a value of another
type (number, boolean, object, ...). -/
inductive JsValue where
  | missing
  | str (s : String)
  | nonString
  deriving DecidableEq, Repr

/-- The raw registration body restricted to the schema's two known keys —
zod's allow-list semantics drops every other key before validation. -/
structure RawBody where
  email : JsValue
  password : JsValue
  deriving DecidableEq, Repr

/-- Issues of the `email` field for any raw field value. -/
def emailIssues : JsValue → List FieldDetail
  | .str s => emailStrIssues s
  | _ => [⟨"email", invalidTypeMsg⟩]

/-- Issues of the `password` field for any raw field value. -/
def passwordIssues : JsValue → List FieldDetail
  | .str s => passwordStrIssues s
  | _ => [⟨"password", invalidTypeMsg⟩]

/-- The validated output fields (also the `User` domain draft the account
service receives: an email and a raw password). -/
structure CreateUserInput where
  email : String
  password : String
  deriving DecidableEq, Repr

/-- `UserValidator.validateCreateUser`: runs `createUserSchema.safeParse`
and on failure throws a `ValidationError` carrying one detail entry per
zod issue (field path joined with ".", plus the issue message). -/
def UserValidator.validateCreateUser (body : RawBody) :
    Except AppErrorData CreateUserInput :=
  match body.email, body.password with
  | .str e, .str p =>
    let ds := emailStrIssues e ++ passwordStrIssues p
    if ds.isEmpty then
      .ok { email := e, password := p }
    else
      .error (ValidationError "Validation failed" (some ds))
  | eField, pField =>
    .error (ValidationError "Validation failed"
      (some (emailIssues eField ++ passwordIssues pField)))

/-! ### Account service (`UserService` of `src/unnamed/part_005`) and the
credential repository (`src/user-service/src/repositories/user.repository.ts`) -/

/-- A document of the `users` collection: the store-assigned identifier
(absent on a record that was never persisted), the email, and the stored
password hash.  `_id` carries the identifier's string form, which is what
`user._id?.toString()` produces. -/
structure UserRecord where
  _id : Option String
  email : String
  password : String
  deriving DecidableEq, Repr

/-- `UserRepository.findOneByEmail`: `collection.findOne({ email })` over
the store in insertion order. -/
def UserRepository.findOneByEmail (store : List UserRecord) (email : String) :
    Option UserRecord :=
  store.find? (fun u => u.email = email)

/-- The observable side effects of one `UserService.createUser` run, in
execution order. -/
inductive ServiceEffect where
  | lookup (email : String)
  | hashPassword (password : String)
  | insert (email passwordHash : String)
  deriving DecidableEq, Repr

/-- `UserService.createUser`, translated line by line; `hashPassword`
models `this.cryptoProvider.hashPassword` and the returned triple is the
thrown-or-returned result, the store after the run (`collection.insertOne`
appends, with the store-assigned id left unmodelled), and the effect
trace. -/
def UserService.createUser (hashPassword : String → String)
    (store : List UserRecord) (user : CreateUserInput) :
    Except AppErrorData Unit × List UserRecord × List ServiceEffect :=
  match UserRepository.findOneByEmail store user.email with
  | some _ =>
    (.error (ConflictError "There is already a user with this email."), store,
      [.lookup user.email])
  | none =>
    let hashed := hashPassword user.password
    (.ok (),
      store ++ [{ _id := none, email := user.email, password := hashed }],
      [.lookup user.email, .hashPassword user.password, .insert user.email hashed])

/-- `UserService.authenticateUser`, translated line by line;
`comparePassword` models `this.cryptoProvider.comparePassword` and `sign`
models `this.jwtProvider.sign`.  The signed claims take
`user._id?.toString() || ''`, i.e. the stored identifier with the empty
string as the fallback. -/
def UserService.authenticateUser (comparePassword : String → String → Bool)
    (sign : JwtPayload → String) (store : List UserRecord)
    (email password : String) : Except AppErrorData (UserRecord × String) :=
  match UserRepository.findOneByEmail store email with
  | none => .error (NotFoundError "User not found.")
  | some user =>
    if ¬ comparePassword password user.password then
      .error (BadRequestError "Invalid email or password.")
    else
      let token := sign { userId := user._id.getD "", email := user.email }
      .ok (user, token)

/-! ### Password hasher (`src/user-service/src/provider/crypto.provider.ts`) -/

/-- Modelled from the spec, section 4.1: the external bcrypt library, which
`CryptoProvider` delegates to.  `digest` is bcrypt's deterministic
derivation for a given salt and password; an output embeds the salt used,
so verification is self-contained.  The fresh random salt that
`bcrypt.hash(password, 10)` draws on each call is passed explicitly. -/
structure BcryptModel where
  digest : String → String → String

/-- A bcrypt output: the embedded salt and the derived digest. -/
structure BcryptHash where
  salt : String
  digestValue : String
  deriving DecidableEq, Repr

/-- `CryptoProvider.hashPassword`: `bcrypt.hash(password, SALT_ROUNDS)`
with the per-call salt made explicit. -/
def CryptoProvider.hashPassword (m : BcryptModel) (salt password : String) :
    BcryptHash :=
  { salt := salt, digestValue := m.digest salt password }

/-- `CryptoProvider.comparePassword`: `bcrypt.compare` re-derives the
digest with the salt embedded in the stored hash and compares. -/
def CryptoProvider.comparePassword (m : BcryptModel) (password : String)
    (hashed : BcryptHash) : Bool :=
  m.digest hashed.salt password == hashed.digestValue

/-! ### Lemmas about `splitChar` -/

/-- Splitting a separator-free character list yields the list itself,
as the single piece. -/
theorem splitChar_sepfree (sep : Char) :
    ∀ l : List Char, sep ∉ l → splitChar sep l = [l] := by
  intro l
  induction l with
  | nil => intro _; rfl
  | cons c rest ih =>
    intro hmem
    have hc : ¬ c = sep := fun h => hmem (h ▸ List.mem_cons_self c rest)
    have hrest : sep ∉ rest := fun h => hmem (List.mem_cons_of_mem c h)
    simp [splitChar, hc, ih hrest]

/-- `splitChar` always yields at least one piece. -/
theorem splitChar_ne_nil (sep : Char) : ∀ l : List Char, splitChar sep l ≠ [] := by
  intro l
  cases l with
  | nil => simp [splitChar]
  | cons c rest =>
    by_cases hc : c = sep
    · simp [splitChar, hc]
    · simp only [splitChar, hc, if_false]
      cases hrec : splitChar sep rest <;> simp

/-- Splitting past a separator-free prefix peels off that prefix as the
first piece. -/
theorem splitChar_append_sep (sep : Char) (l1 l2 : List Char) (h1 : sep ∉ l1) :
    splitChar sep (l1 ++ sep :: l2) = l1 :: splitChar sep l2 := by
  induction l1 with
  | nil => simp [splitChar]
  | cons c rest ih =>
    have hc : ¬ c = sep := fun hh => h1 (hh ▸ List.mem_cons_self c rest)
    have hrest : sep ∉ rest := fun hh => h1 (List.mem_cons_of_mem c hh)
    rw [List.cons_append]
    simp only [splitChar, hc, if_false, ih hrest]

/-- A well-formed bearer header `"Bearer " ++ tok` with a space-free token
splits into exactly the scheme and the token. -/
theorem jsSplit_bearer (tok : String) (h : ' ' ∉ tok.toList) :
    jsSplit ' ' ("Bearer " ++ tok) = ["Bearer", tok] := by
  unfold jsSplit
  have hlist : ("Bearer " ++ tok).toList
      = "Bearer".toList ++ ' ' :: tok.toList := by
    cases tok
    rfl
  rw [hlist, splitChar_append_sep ' ' _ _ (by decide),
    splitChar_sepfree ' ' tok.toList h]
  cases tok
  rfl

/-! ### Claim theorems for the user-auth gate -/

/-- C1 (counterexample): the spec's state machine, read literally, says a
*present* but empty `authorization` header has a part count of one and is
rejected with "Invalid token format"; the code tests JavaScript falsiness
and rejects the empty header with "No token provided" instead. -/
theorem authGate_empty_header_counterexample :
    AuthMiddleware.authenticate (fun _ => Except.error "sig") (some "") ≠
      authGateSpecClaim (fun _ => Except.error "sig") (some "") := by
  decide

/-- C1 (amended): the user-auth gate realises the spec's state machine with
case 1 broadened to fire when the header is missing *or empty*; all other
cases (part count, case-insensitive Bearer scheme, verification failure,
admission with the verified claims attached) are exactly as the spec words
them. -/
theorem authGate_state_machine (verifyTok : String → Except String JwtPayload)
    (authorization : Option String) :
    AuthMiddleware.authenticate verifyTok authorization
      = authGateSpecAmended verifyTok authorization := by
  cases authorization with
  | none => rfl
  | some s =>
    by_cases hs : s = ""
    · subst hs; rfl
    · simp [AuthMiddleware.authenticate, authGateSpecAmended, jsStrFalsy, hs]

/-- C4 (counterexample): an unexpected internal exception thrown during
token verification (here the library throwing "Unexpected error") is caught
by the inner catch and surfaces as the 401 "Invalid or expired token"
rejection, which is not the 500 internal-error classification the claim
requires. This mirrors the repository's own middleware test, whose
assertions expect 401 here. -/
theorem authGate_verify_exception_counterexample :
    AuthMiddleware.authenticate
        (fun _ => Except.error "Unexpected error") (some "Bearer valid.token")
      = GateResult.rejected 401 "Unauthorized" "Invalid or expired token" ∧
    GateResult.rejected 401 "Unauthorized" "Invalid or expired token" ≠
      GateResult.rejected 500 "Internal Server Error" "Authentication failed" :=
  ⟨rfl, by decide⟩

/-- C4 (amended): any exception raised by the token-verification call — the
only step of the gate that can throw in this embedding — is caught and
surfaced as the 401 "Invalid or expired token" rejection, not as the 500
internal-error classification; consequently every rejection the gate
produces carries status 401. -/
theorem authGate_exception_classification :
    (∀ (verifyTok : String → Except String JwtPayload) (tok e : String),
      ' ' ∉ tok.toList → verifyTok tok = .error e →
        AuthMiddleware.authenticate verifyTok (some ("Bearer " ++ tok))
          = .rejected 401 "Unauthorized" "Invalid or expired token") ∧
    (∀ (verifyTok : String → Except String JwtPayload) (header : Option String)
        (st : Nat) (er ms : String),
      AuthMiddleware.authenticate verifyTok header = .rejected st er ms →
        st = 401) := by
  constructor
  · intro verifyTok tok e hnospace hthrow
    have hsplit := jsSplit_bearer tok hnospace
    have hfalsy : jsStrFalsy (some ("Bearer " ++ tok)) = false := by
      simp [jsStrFalsy]
      intro habs
      have : ("Bearer " ++ tok).toList = [] := by rw [habs]; rfl
      simp [show ("Bearer " ++ tok).toList
          = 'B' :: 'e' :: 'a' :: 'r' :: 'e' :: 'r' :: ' ' :: tok.toList
        from by cases tok; rfl] at this
    simp [AuthMiddleware.authenticate, hfalsy, hsplit, bearerSchemeTest, hthrow]
  · intro verifyTok header st er ms heq
    unfold AuthMiddleware.authenticate at heq
    split at heq
    · cases heq; rfl
    · simp only [] at heq
      split at heq
      · cases heq; rfl
      · split at heq
        · cases heq; rfl
        · split at heq
          · cases heq; rfl
          · cases heq

/-- C4 (witness): the amended classification evaluated at a concrete
always-throwing verifier and a concrete rejected outcome. -/
theorem authGate_exception_classification_witness :
    AuthMiddleware.authenticate
        (fun _ => Except.error "boom") (some ("Bearer " ++ "abc"))
      = .rejected 401 "Unauthorized" "Invalid or expired token" ∧
    (401 : Nat) = 401 :=
  ⟨authGate_exception_classification.1 (fun _ => Except.error "boom") "abc" "boom"
      (by decide) rfl,
    authGate_exception_classification.2 (fun _ => Except.error "boom") none 401
      "Unauthorized" "No token provided" rfl⟩

/-- C7: `JwtProvider.verify` either returns the library's decoded claims or
fails with the single uniform error "Invalid or expired token", whatever
cause the underlying library threw; two failing verifications are
indistinguishable to the caller. -/
theorem jwtVerify_uniform_error :
    ∀ (jwtVerify : String → Except JwtLibError JwtPayload) (t : String),
      (∀ p, jwtVerify t = .ok p → JwtProvider.verify jwtVerify t = .ok p) ∧
      (∀ c, jwtVerify t = .error c →
        JwtProvider.verify jwtVerify t = .error "Invalid or expired token") ∧
      (∀ (jwtVerify2 : String → Except JwtLibError JwtPayload) (t2 : String) c c2,
        jwtVerify t = .error c → jwtVerify2 t2 = .error c2 →
        JwtProvider.verify jwtVerify t = JwtProvider.verify jwtVerify2 t2) := by
  intro jwtVerify t
  refine ⟨?_, ?_, ?_⟩ <;> intros <;> simp [JwtProvider.verify, *]

/-- C7 (witness): a bad-signature failure and an expiry failure produce the
same uniform error. -/
theorem jwtVerify_uniform_error_witness :
    JwtProvider.verify (fun _ => Except.error JwtLibError.badSignature) "t"
      = Except.error "Invalid or expired token" ∧
    JwtProvider.verify (fun _ => Except.error JwtLibError.badSignature) "t"
      = JwtProvider.verify (fun _ => Except.error JwtLibError.expired) "u" :=
  ⟨(jwtVerify_uniform_error (fun _ => Except.error JwtLibError.badSignature) "t").2.1
      JwtLibError.badSignature rfl,
    (jwtVerify_uniform_error (fun _ => Except.error JwtLibError.badSignature) "t").2.2
      (fun _ => Except.error JwtLibError.expired) "u"
      JwtLibError.badSignature JwtLibError.expired rfl rfl⟩

/-! ### Claim theorems for the service-auth gate and the error responder -/

/-- C5 (counterexample): with the static token configured as "secret", an
`x-token` header that is present but empty is rejected by the code with
"No service token provided" (JavaScript falsiness), while the spec's state
machine, read literally, reaches the equality check and rejects with
"Invalid service token". -/
theorem serviceGate_empty_header_counterexample :
    ServiceAuthMiddleware.authenticate "secret" (some (.str "")) ≠
      serviceGateSpecClaim "secret" (some (.str "")) := by
  decide

/-- C5 (amended): the service-auth gate realises the spec's state machine
with case 1 broadened to fire when the header is absent *or empty*; a
non-string (duplicated) header value is rejected as "Invalid token format",
a string different from the configured static token as "Invalid service
token", and a matching token admits the request with no claims attached. -/
theorem serviceGate_state_machine (serviceToken : String)
    (xToken : Option HeaderValue) :
    ServiceAuthMiddleware.authenticate serviceToken xToken
      = serviceGateSpecAmended serviceToken xToken := by
  cases xToken with
  | none => rfl
  | some v =>
    cases v with
    | strs l => rfl
    | str s =>
      by_cases hs : s = ""
      · subst hs; rfl
      · simp [ServiceAuthMiddleware.authenticate, serviceGateSpecAmended,
          ServiceTokenProvider.verify, hs]

/-- C8 (counterexample): an `AppError` constructed with the empty string as
its code has a present code, yet the response omits it, because
`if (error.code)` tests JavaScript truthiness. -/
theorem errorHandler_empty_code_counterexample :
    (ErrorHandler.handle (.appError (AppError "Custom error" 418 (some "")))).code
      ≠ (AppError "Custom error" 418 (some "")).code ∧
    (AppError "Custom error" 418 (some "")).code = some "" := by
  decide

/-- C8 (amended): a domain error is answered with exactly its own
`statusCode` and `message`; its `code` is carried over exactly when it is
present and nonempty; the `details` list appears exactly for a
`ValidationError` whose details are set, and is then carried unchanged;
every non-`AppError` value is answered with status 500 and the body
"Internal server error", with no internal detail. -/
theorem errorHandler_responses :
    (∀ e : AppErrorData,
      (ErrorHandler.handle (.appError e)).status = e.statusCode ∧
      (ErrorHandler.handle (.appError e)).error = e.message ∧
      ((ErrorHandler.handle (.appError e)).code = e.code ↔ e.code ≠ some "") ∧
      ((ErrorHandler.handle (.appError e)).details ≠ none ↔
        e.isValidation = true ∧ e.details ≠ none) ∧
      (∀ ds, e.isValidation = true → e.details = some ds →
        (ErrorHandler.handle (.appError e)).details = some ds)) ∧
    (∀ v : ErrValue, (∀ e, v ≠ .appError e) →
      ErrorHandler.handle v
        = { status := 500, error := "Internal server error",
            code := none, details := none }) := by
  constructor
  · intro e
    obtain ⟨msg, st, code, isV, det⟩ := e
    refine ⟨rfl, rfl, ?_, ?_, ?_⟩
    · cases code with
      | none => simp [ErrorHandler.handle]
      | some c =>
        by_cases hc : c = ""
        · subst hc; simp [ErrorHandler.handle]
        · simp [ErrorHandler.handle, hc]
    · cases isV <;> cases det <;> simp [ErrorHandler.handle]
    · intro ds hv hd
      cases hv
      cases hd
      simp [ErrorHandler.handle]
  · intro v hv
    cases v with
    | appError e => exact absurd rfl (hv e)
    | genericError m => rfl
    | strVal s => rfl
    | nullVal => rfl
    | undefinedVal => rfl
    | objVal => rfl

/-- C8 (witness): the amended responder behaviour evaluated at a concrete
`ValidationError` with two details and at a concrete non-`AppError` string
value. -/
theorem errorHandler_responses_witness :
    (ErrorHandler.handle (.appError (ValidationError "Validation failed"
        (some [⟨"email", "Invalid email"⟩])))).details
      = some [⟨"email", "Invalid email"⟩] ∧
    ErrorHandler.handle (.strVal "String error")
      = { status := 500, error := "Internal server error",
          code := none, details := none } :=
  ⟨(errorHandler_responses.1 (ValidationError "Validation failed"
        (some [⟨"email", "Invalid email"⟩]))).2.2.2.2
      [⟨"email", "Invalid email"⟩] rfl rfl,
    errorHandler_responses.2 (.strVal "String error") (fun _ h => by cases h)⟩

/-! ### Claim theorems for the validator, the account service and the hasher -/

/-- Every issue the email field produces names the field "email". -/
theorem emailStrIssues_field {s : String} {d : FieldDetail}
    (h : d ∈ emailStrIssues s) : d.field = "email" := by
  unfold emailStrIssues at h
  rcases List.mem_append.mp h with h1 | h2
  · split at h1 <;> simp_all
  · split at h2 <;> simp_all

/-- Every issue the password field produces names the field "password". -/
theorem passwordStrIssues_field {s : String} {d : FieldDetail}
    (h : d ∈ passwordStrIssues s) : d.field = "password" := by
  unfold passwordStrIssues at h
  rcases List.mem_append.mp h with h1 | h2
  · split at h1 <;> simp_all
  · split at h2 <;> simp_all

/-- C6: the validator collects the violated rules of all fields into the
`details` list in one pass — the detail count is the total number of
violated checks across both fields, with an entry naming each violated
field — and on the spec's scenario (email "not-an-email", password "123")
it produces exactly two detail entries, one per field, each carrying a
field name and message. -/
theorem validator_collects_all_errors :
    (∀ e p : String, emailStrIssues e ≠ [] → passwordStrIssues p ≠ [] →
      ∃ ds, UserValidator.validateCreateUser ⟨.str e, .str p⟩
          = .error (ValidationError "Validation failed" (some ds)) ∧
        ds.length = (emailStrIssues e).length + (passwordStrIssues p).length ∧
        (∃ d ∈ ds, d.field = "email") ∧ (∃ d ∈ ds, d.field = "password")) ∧
    UserValidator.validateCreateUser ⟨.str "not-an-email", .str "123"⟩
      = .error (ValidationError "Validation failed"
          (some [⟨"email", emailFormatMsg⟩, ⟨"password", passwordMinMsg⟩])) := by
  constructor
  · intro e p he hp
    refine ⟨emailStrIssues e ++ passwordStrIssues p, ?_, ?_, ?_, ?_⟩
    · have hne : ¬ (emailStrIssues e ++ passwordStrIssues p).isEmpty := by
        simp [List.isEmpty_iff, he]
      simp [UserValidator.validateCreateUser, hne]
    · exact List.length_append _ _
    · obtain ⟨d, hd⟩ := List.exists_mem_of_ne_nil _ he
      exact ⟨d, List.mem_append_left _ hd, emailStrIssues_field hd⟩
    · obtain ⟨d, hd⟩ := List.exists_mem_of_ne_nil _ hp
      exact ⟨d, List.mem_append_right _ hd, passwordStrIssues_field hd⟩
  · rfl

/-- C6 (witness): the one-pass collection applied to the spec's concrete
scenario. -/
theorem validator_collects_all_errors_witness :
    ∃ ds, UserValidator.validateCreateUser ⟨.str "not-an-email", .str "123"⟩
        = .error (ValidationError "Validation failed" (some ds)) ∧
      ds.length = (emailStrIssues "not-an-email").length
          + (passwordStrIssues "123").length ∧
      (∃ d ∈ ds, d.field = "email") ∧ (∃ d ∈ ds, d.field = "password") :=
  validator_collects_all_errors.1 "not-an-email" "123" (by decide) (by decide)

/-- C2: login fails with the 404 NotFound error when no record with the
email exists; with the 400 BadRequest error carrying the generic message
"Invalid email or password." when the stored hash does not match; and on a
match returns the stored record together with a token signed over exactly
the record's identifier (with the empty-string fallback) and email. -/
theorem authenticateUser_outcomes :
    ∀ (comparePassword : String → String → Bool) (sign : JwtPayload → String)
      (store : List UserRecord) (email password : String),
      (UserRepository.findOneByEmail store email = none →
        UserService.authenticateUser comparePassword sign store email password
          = .error (NotFoundError "User not found.")) ∧
      (∀ u, UserRepository.findOneByEmail store email = some u →
        comparePassword password u.password = false →
        UserService.authenticateUser comparePassword sign store email password
          = .error (BadRequestError "Invalid email or password.")) ∧
      (∀ u, UserRepository.findOneByEmail store email = some u →
        comparePassword password u.password = true →
        UserService.authenticateUser comparePassword sign store email password
          = .ok (u, sign { userId := u._id.getD "", email := u.email })) := by
  intro comparePassword sign store email password
  refine ⟨?_, ?_, ?_⟩ <;> intros <;>
    simp [UserService.authenticateUser, *]

/-- C2 (witness): the three outcomes at a concrete store, comparator and
signer. -/
theorem authenticateUser_outcomes_witness :
    UserService.authenticateUser (fun _ _ => false) (fun pl => pl.email)
        [] "a@b.com" "pw"
      = .error (NotFoundError "User not found.") ∧
    UserService.authenticateUser (fun _ _ => false) (fun pl => pl.email)
        [⟨some "123", "a@b.com", "hash"⟩] "a@b.com" "pw"
      = .error (BadRequestError "Invalid email or password.") ∧
    UserService.authenticateUser (fun _ _ => true)
        (fun pl => pl.userId ++ ":" ++ pl.email)
        [⟨some "123", "a@b.com", "hash"⟩] "a@b.com" "pw"
      = .ok (⟨some "123", "a@b.com", "hash"⟩, "123:a@b.com") :=
  ⟨(authenticateUser_outcomes (fun _ _ => false) (fun pl => pl.email)
        [] "a@b.com" "pw").1 rfl,
    (authenticateUser_outcomes (fun _ _ => false) (fun pl => pl.email)
        [⟨some "123", "a@b.com", "hash"⟩] "a@b.com" "pw").2.1
      ⟨some "123", "a@b.com", "hash"⟩ rfl rfl,
    (authenticateUser_outcomes (fun _ _ => true)
        (fun pl => pl.userId ++ ":" ++ pl.email)
        [⟨some "123", "a@b.com", "hash"⟩] "a@b.com" "pw").2.2
      ⟨some "123", "a@b.com", "hash"⟩ rfl rfl⟩

/-- C3: registration first looks the email up; on a hit it fails with the
409 Conflict error while the effect trace shows neither a hasher call nor a
repository write and the store is unchanged; on a miss it persists exactly
one new record carrying the email and the hasher's output in the password
slot. -/
theorem createUser_conflict_or_persist :
    ∀ (hashPassword : String → String) (store : List UserRecord)
      (user : CreateUserInput),
      (∀ ex, UserRepository.findOneByEmail store user.email = some ex →
        (UserService.createUser hashPassword store user).1
          = .error (ConflictError "There is already a user with this email.") ∧
        (UserService.createUser hashPassword store user).2.1 = store ∧
        (∀ eff ∈ (UserService.createUser hashPassword store user).2.2,
          (∀ p, eff ≠ ServiceEffect.hashPassword p) ∧
          (∀ a b, eff ≠ ServiceEffect.insert a b))) ∧
      (UserRepository.findOneByEmail store user.email = none →
        UserService.createUser hashPassword store user
          = (.ok (),
              store ++ [{ _id := none, email := user.email,
                          password := hashPassword user.password }],
              [.lookup user.email, .hashPassword user.password,
                .insert user.email (hashPassword user.password)])) := by
  intro hashPassword store user
  constructor
  · intro ex hfind
    refine ⟨?_, ?_, ?_⟩
    · simp [UserService.createUser, hfind]
    · simp [UserService.createUser, hfind]
    · intro eff heff
      simp [UserService.createUser, hfind] at heff
      subst heff
      constructor
      · intro p h
        simp at h
      · intro a b h
        simp at h
  · intro hfind
    simp [UserService.createUser, hfind]

/-- C3 (witness): a conflicting registration against a one-record store and
a fresh registration against the empty store. -/
theorem createUser_conflict_or_persist_witness :
    (UserService.createUser (fun p => "H" ++ p)
        [⟨some "1", "a@b.com", "old"⟩] ⟨"a@b.com", "secret1"⟩).1
      = .error (ConflictError "There is already a user with this email.") ∧
    UserService.createUser (fun p => "H" ++ p) [] ⟨"a@b.com", "secret1"⟩
      = (.ok (), [⟨none, "a@b.com", "Hsecret1"⟩],
          [.lookup "a@b.com", .hashPassword "secret1",
            .insert "a@b.com" "Hsecret1"]) :=
  ⟨((createUser_conflict_or_persist (fun p => "H" ++ p)
        [⟨some "1", "a@b.com", "old"⟩] ⟨"a@b.com", "secret1"⟩).1
      ⟨some "1", "a@b.com", "old"⟩ rfl).1,
    (createUser_conflict_or_persist (fun p => "H" ++ p)
        [] ⟨"a@b.com", "secret1"⟩).2 rfl⟩

/-- C10: when the stored record has no `_id`, login still succeeds and the
signed claims carry the empty string as `userId` — the identifier falls
back to `""` instead of raising. -/
theorem authenticateUser_missing_id
    (comparePassword : String → String → Bool) (sign : JwtPayload → String)
    (store : List UserRecord) (email password : String) (u : UserRecord)
    (hfind : UserRepository.findOneByEmail store email = some u)
    (hid : u._id = none)
    (hmatch : comparePassword password u.password = true) :
    UserService.authenticateUser comparePassword sign store email password
      = .ok (u, sign { userId := "", email := u.email }) := by
  simp [UserService.authenticateUser, hfind, hmatch, hid]

/-- C10 (witness): a concrete id-less record yields a token signed over the
empty subject identifier. -/
theorem authenticateUser_missing_id_witness :
    UserService.authenticateUser (fun _ _ => true)
        (fun pl => pl.userId ++ ":" ++ pl.email)
        [⟨none, "a@b.com", "hash"⟩] "a@b.com" "pw"
      = .ok (⟨none, "a@b.com", "hash"⟩, ":a@b.com") :=
  authenticateUser_missing_id (fun _ _ => true)
    (fun pl => pl.userId ++ ":" ++ pl.email)
    [⟨none, "a@b.com", "hash"⟩] "a@b.com" "pw"
    ⟨none, "a@b.com", "hash"⟩ rfl rfl rfl

/-- C9: hashing the same password with the two distinct fresh salts of two
calls yields two different outputs (the salt is embedded in the output),
yet verification accepts the password against both. -/
theorem hashPassword_salted_verify (m : BcryptModel) (password s1 s2 : String)
    (hs : s1 ≠ s2) :
    CryptoProvider.hashPassword m s1 password
      ≠ CryptoProvider.hashPassword m s2 password ∧
    CryptoProvider.comparePassword m password
        (CryptoProvider.hashPassword m s1 password) = true ∧
    CryptoProvider.comparePassword m password
        (CryptoProvider.hashPassword m s2 password) = true := by
  refine ⟨?_, ?_, ?_⟩
  · intro h
    exact hs (congrArg BcryptHash.salt h)
  · simp [CryptoProvider.comparePassword, CryptoProvider.hashPassword]
  · simp [CryptoProvider.comparePassword, CryptoProvider.hashPassword]

/-- C9 (witness): two concrete distinct salts on a concrete bcrypt model. -/
theorem hashPassword_salted_verify_witness :
    CryptoProvider.hashPassword ⟨fun s p => s ++ p⟩ "saltA" "pw"
      ≠ CryptoProvider.hashPassword ⟨fun s p => s ++ p⟩ "saltB" "pw" ∧
    CryptoProvider.comparePassword ⟨fun s p => s ++ p⟩ "pw"
        (CryptoProvider.hashPassword ⟨fun s p => s ++ p⟩ "saltA" "pw") = true ∧
    CryptoProvider.comparePassword ⟨fun s p => s ++ p⟩ "pw"
        (CryptoProvider.hashPassword ⟨fun s p => s ++ p⟩ "saltB" "pw") = true :=
  hashPassword_salted_verify ⟨fun s p => s ++ p⟩ "pw" "saltA" "saltB" (by decide)

end BffExample
